import Mathlib

/-!
A verification development for the `corosexport` repository: a shallow
embedding of its data model (`models.py`), vendor protocol client
(`client.py`) and backup manager (`backup.py`), with theorems settling the
specification claims.

Modelling conventions:
* Python exceptions are modelled by the `PyErr` type and fallible code
  returns `Except PyErr _`.
* Python `datetime` values are modelled as abstract ticks (`Nat`);
  `datetime.isoformat` is modelled as an injective rendering `isoFormat`
  with `fromIsoFormat` a partial inverse that rejects malformed strings
  (the textual details of ISO-8601 belong to the Python stdlib, an
  external collaborator).
* JSON documents are the inductive `Json`; a checkpoint file read is a
  `LoadInput` (missing file, I/O error, JSON decode error, or a decoded
  document).
* The HTTP server is a pure function from request parameters to
  responses; `requests` transport failures are outside the claims.
* `float` fields (`distance_meters`) are carried as `Int` placeholders:
  no claim depends on their arithmetic.
-/

/-- Python exception classes that appear in the embedded code paths:
`CorosAPIError`, `CorosAuthError` (client.py lines 28-33) and the
built-ins that escape uncaught (`KeyError`, `ValueError`, `TypeError`,
`UnboundLocalError`). -/
inductive PyErr where
  | apiError (msg : String)
  | authError (msg : String)
  | keyError (msg : String)
  | valueError (msg : String)
  | typeError (msg : String)
  | unboundLocalError (msg : String)
deriving DecidableEq

/-- `models.ActivityType`: the eleven enum members (models.py lines 31-43). -/
inductive ActivityType where
  | running | trailRunning | cycling | mountainBiking | swimming
  | poolSwim | hiking | strength | yoga | triathlon | other
deriving DecidableEq

/-- The `.value` string of each `ActivityType` member. -/
def ActivityType.value : ActivityType → String
  | .running => "RUNNING"
  | .trailRunning => "TRAIL_RUNNING"
  | .cycling => "CYCLING"
  | .mountainBiking => "MOUNTAIN_BIKING"
  | .swimming => "SWIMMING"
  | .poolSwim => "POOL_SWIM"
  | .hiking => "HIKING"
  | .strength => "STRENGTH"
  | .yoga => "YOGA"
  | .triathlon => "TRIATHLON"
  | .other => "OTHER"

/-- `models._SPORT_TYPE_MAP` (models.py lines 10-21), in source order. -/
def sportTypeMap : List (Int × String) :=
  [(100, "RUNNING"), (101, "TRAIL_RUNNING"), (200, "CYCLING"),
   (201, "MOUNTAIN_BIKING"), (300, "SWIMMING"), (301, "POOL_SWIM"),
   (104, "HIKING"), (402, "STRENGTH"), (904, "YOGA"), (500, "TRIATHLON")]

/-- `models._FILE_TYPE_MAP` (models.py lines 23-29), in source order. -/
def fileTypeMap : List (Int × String) :=
  [(0, "csv"), (1, "gpx"), (2, "kml"), (3, "tcx"), (4, "fit")]

/-- Enum value lookup `ActivityType(name)` together with the `_missing_`
hook (models.py lines 56-59): any string that is not a member value
yields `OTHER`. -/
def ActivityType.ofValue (s : String) : ActivityType :=
  if s = "RUNNING" then .running
  else if s = "TRAIL_RUNNING" then .trailRunning
  else if s = "CYCLING" then .cycling
  else if s = "MOUNTAIN_BIKING" then .mountainBiking
  else if s = "SWIMMING" then .swimming
  else if s = "POOL_SWIM" then .poolSwim
  else if s = "HIKING" then .hiking
  else if s = "STRENGTH" then .strength
  else if s = "YOGA" then .yoga
  else if s = "TRIATHLON" then .triathlon
  else .other

/-- `ActivityType.from_sport_type` (models.py lines 45-48):
`_SPORT_TYPE_MAP.get(sport_type, "OTHER")` then enum value lookup. -/
def ActivityType.from_sport_type (sportType : Int) : ActivityType :=
  ActivityType.ofValue ((sportTypeMap.lookup sportType).getD "OTHER")

/-- `ActivityType.to_sport_type` (models.py lines 50-54): first map entry
whose name equals `self.value`, else `None`. -/
def ActivityType.to_sport_type (t : ActivityType) : Option Int :=
  (sportTypeMap.find? (fun p => p.2 == t.value)).map Prod.fst

/-- `models.ExportFormat`: the five enum members (models.py lines 61-67). -/
inductive ExportFormat where
  | csv | gpx | kml | tcx | fit
deriving DecidableEq

/-- The `.value` string of each `ExportFormat` member. -/
def ExportFormat.value : ExportFormat → String
  | .csv => "csv"
  | .gpx => "gpx"
  | .kml => "kml"
  | .tcx => "tcx"
  | .fit => "fit"

/-- Enum value lookup `ExportFormat(name)`: `ExportFormat` defines no
`_missing_` hook, so an unknown value raises `ValueError`. -/
def ExportFormat.ofValue (s : String) : Except PyErr ExportFormat :=
  if s = "csv" then .ok .csv
  else if s = "gpx" then .ok .gpx
  else if s = "kml" then .ok .kml
  else if s = "tcx" then .ok .tcx
  else if s = "fit" then .ok .fit
  else .error (.valueError (s ++ " is not a valid ExportFormat"))

/-- `ExportFormat.from_file_type` (models.py lines 69-72):
`_FILE_TYPE_MAP.get(code, "OTHER")` then enum value lookup (which raises
on "OTHER"). -/
def ExportFormat.from_file_type (code : Int) : Except PyErr ExportFormat :=
  ExportFormat.ofValue ((fileTypeMap.lookup code).getD "OTHER")

/-- `ExportFormat.to_file_type` (models.py lines 74-78): first map entry
whose name equals `self.value`, else `None`. -/
def ExportFormat.to_file_type (f : ExportFormat) : Option Int :=
  (fileTypeMap.find? (fun p => p.2 == f.value)).map Prod.fst

/-- `models.ActivitySummary` (models.py lines 81-93). Timestamps are
abstract ticks; `distance_meters` is a numeric placeholder. -/
structure ActivitySummary where
  activity_id : String
  activity_name : String
  activity_type : ActivityType
  start_time : Nat
  end_time : Nat
  workout_seconds : Int
  total_seconds : Int
  distance_meters : Int
deriving DecidableEq

/-- `models.BackupState` (models.py lines 115-135): the persisted
checkpoint record. The dedup authority is the *set* of downloaded ids. -/
structure BackupState where
  last_backup_timestamp : Nat
  total_activities_backed_up : Int
  last_synced_activity_id : Option String
  downloaded_activity_ids : Finset String
deriving DecidableEq

/-- JSON documents, as produced by `json.load` / consumed by `json.dump`. -/
inductive Json where
  | null
  | bool (b : Bool)
  | int (n : Int)
  | str (s : String)
  | arr (elems : List Json)
  | obj (fields : List (String × Json))

/-- `datetime.isoformat` modelled as an injective rendering of the tick
count (see the header note). -/
def isoFormat (t : Nat) : String :=
  String.mk (List.replicate t 'D')

/-- `datetime.fromisoformat` modelled as the partial inverse of
`isoFormat`: malformed strings yield `none` (Python raises `ValueError`). -/
def fromIsoFormat (s : String) : Option Nat :=
  if s.data.all (fun c => c == 'D') then some s.data.length else none

/-- Dictionary key access on a decoded JSON object. -/
def lookupField : List (String × Json) → String → Option Json
  | [], _ => none
  | (k, v) :: rest, key => if k = key then some v else lookupField rest key

/-- Decode a JSON array all of whose elements are strings. -/
def decodeStrList : List Json → Option (List String)
  | [] => some []
  | Json.str s :: rest => (decodeStrList rest).map (fun l => s :: l)
  | _ :: _ => none

/-- The possible outcomes of reading the checkpoint file
(backup.py lines 50-53): absent file, read error, content that is not
JSON, or a decoded JSON document. -/
inductive LoadInput where
  | missing
  | ioError
  | invalidJson (raw : String)
  | json (j : Json)

/-- The fresh state built at backup.py lines 69-73: empty dedup set, zero
counter, `last_synced_activity_id` defaulted to `None`, current time. -/
def freshState (now : Nat) : BackupState :=
  { last_backup_timestamp := now
    total_activities_backed_up := 0
    last_synced_activity_id := none
    downloaded_activity_ids := ∅ }

/-- `data.get("total_activities_backed_up", 0)` followed by pydantic
`int` validation. -/
def getIntField (fields : List (String × Json)) (key : String) : Except PyErr Int :=
  match lookupField fields key with
  | none => .ok 0
  | some (Json.int n) => .ok n
  | some _ => .error (.typeError "value is not a valid integer")

/-- `data.get("last_synced_activity_id")` followed by pydantic
`Optional[str]` validation. -/
def getOptStrField (fields : List (String × Json)) (key : String) : Except PyErr (Option String) :=
  match lookupField fields key with
  | none => .ok none
  | some Json.null => .ok none
  | some (Json.str s) => .ok (some s)
  | some _ => .error (.typeError "value is not a valid string")

/-- `set(data.get("downloaded_activity_ids", []))` followed by pydantic
`set[str]` validation. Python `set()` over a string yields its characters
and over a dict yields its keys; other scalars are not iterable. -/
def getIdSetField (fields : List (String × Json)) (key : String) : Except PyErr (Finset String) :=
  match lookupField fields key with
  | none => .ok ∅
  | some (Json.arr elems) =>
    match decodeStrList elems with
    | some l => .ok l.toFinset
    | none => .error (.typeError "value is not a valid string")
  | some (Json.str s) => .ok (s.data.map Char.toString).toFinset
  | some (Json.obj fs) => .ok (fs.map Prod.fst).toFinset
  | some _ => .error (.typeError "object is not iterable")

/-- `BackupManager._load_state` (backup.py lines 44-73) as a function of
the file read outcome. Only `json.JSONDecodeError` and `IOError` are
caught (line 65); `KeyError` from the mandatory timestamp access,
`ValueError` from `datetime.fromisoformat` and `TypeError` from indexing
a non-dict document all escape. -/
def load_state (input : LoadInput) (now : Nat) : Except PyErr BackupState :=
  match input with
  | .missing => .ok (freshState now)
  | .ioError => .ok (freshState now)
  | .invalidJson _ => .ok (freshState now)
  | .json (Json.obj fields) =>
    match lookupField fields "last_backup_timestamp" with
    | none => .error (.keyError "last_backup_timestamp")
    | some (Json.str s) =>
      match fromIsoFormat s with
      | none => .error (.valueError "invalid isoformat string")
      | some ts =>
        match getIntField fields "total_activities_backed_up" with
        | .error e => .error e
        | .ok total =>
          match getOptStrField fields "last_synced_activity_id" with
          | .error e => .error e
          | .ok lastId =>
            match getIdSetField fields "downloaded_activity_ids" with
            | .error e => .error e
            | .ok ids => .ok ⟨ts, total, lastId, ids⟩
    | some _ => .error (.typeError "fromisoformat argument must be str")
  | .json _ => .error (.typeError "indices must be str")

/-- `BackupManager._save_state` (backup.py lines 75-88): the JSON
document written to the checkpoint file. Python serializes the dedup set
as `list(set)` in unspecified order; the model fixes a canonical
(sorted) order, which is immaterial since load rebuilds the set. -/
def save_state (st : BackupState) : Json :=
  Json.obj
    [("last_backup_timestamp", Json.str (isoFormat st.last_backup_timestamp)),
     ("total_activities_backed_up", Json.int st.total_activities_backed_up),
     ("last_synced_activity_id",
       match st.last_synced_activity_id with
       | none => Json.null
       | some s => Json.str s),
     ("downloaded_activity_ids",
       Json.arr ((st.downloaded_activity_ids.sort (· ≤ ·)).map Json.str))]

/-- `CorosClient._check_api_response` (client.py lines 66-84): a result
code other than `"0000"` raises — `CorosAuthError` for the specific
invalid-token code `"1019"`, `CorosAPIError` otherwise. `result` and
`message` are `data.get(...)` accesses, hence `Option`s with defaults
`"unknown"` / `"Unknown error"`. -/
def check_api_response (result : Option String) (message : Option String) : Except PyErr Unit :=
  if result = some "0000" then .ok ()
  else
    if result.getD "unknown" = "1019" then
      .error (.authError ("Access token is invalid: " ++ message.getD "Unknown error"))
    else
      .error (.apiError ("API error (code " ++ result.getD "unknown" ++ "): " ++ message.getD "Unknown error"))

/-- One page of the activity-listing endpoint, post-`json()`: the
top-level `result`/`message` fields and the `data.totalPage` /
`data.dataList` payload (with their Python-side `get` defaults already
applied). `dataList` carries the already-converted `ActivitySummary`
records; the per-record conversion with its skip-on-failure
(client.py lines 153-169) is not load-bearing for any claim. -/
structure ListResponse where
  result : Option String
  message : Option String
  totalPage : Nat
  dataList : List ActivitySummary

/-- The listing server as a pure function: requested page size and page
number to response (client.py issues one GET per page). -/
def ListServer : Type := Int → Nat → ListResponse

/-- The page-size clamp at client.py line 127:
`limit = 200 if limit > 200 else limit`. -/
def clampLimit (limit : Int) : Int :=
  if limit > 200 then 200 else limit

/-- The follow-up pages `range(2, total_pages + 1)`. -/
def followUpPages (totalPages : Nat) : List Nat :=
  List.range' 2 (totalPages - 1)

/-- The accumulation loop of client.py lines 145-151 over the follow-up
pages: each response is checked and its `dataList` appended. -/
def fetchPages (server : ListServer) (lim : Int) (acc : List ActivitySummary) :
    List Nat → Except PyErr (List ActivitySummary)
  | [] => .ok acc
  | p :: rest =>
    let r := server lim p
    match check_api_response r.result r.message with
    | .error e => .error e
    | .ok _ => fetchPages server lim (acc ++ r.dataList) rest

/-- `CorosClient.get_activities` (client.py lines 123-170): requires a
session token, clamps the page size, fetches page 1, reads
`totalPage` from it, then accumulates pages 2..totalPage. -/
def get_activities (server : ListServer) (authed : Bool) (limit : Int) :
    Except PyErr (List ActivitySummary) :=
  if !authed then .error (.apiError "Not authenticated. Call authenticate() first.")
  else
    let lim := clampLimit limit
    let r1 := server lim 1
    match check_api_response r1.result r1.message with
    | .error e => .error e
    | .ok _ => fetchPages server lim r1.dataList (followUpPages r1.totalPage)

/-- The first response of the two-hop download flow
(client.py lines 184-195): either a JSON envelope (result code, message,
optional `data.fileUrl`) or a response whose content type is not JSON
(binary body). -/
inductive DlResponse where
  | jsonEnvelope (result : Option String) (message : Option String) (fileUrl : Option String)
  | nonJson (body : String)

/-- `CorosClient.download_activity_file` (client.py lines 172-202) as a
function of the first response and the (full) body of the second
request. The return value pairs the Python boolean with the file write
performed, if any: `some (path, content)` records that `content` was
written to `path` — the write happens only once the complete second body
is in hand. On a non-JSON first response the local variable `data` is
never assigned, so line 193 raises `UnboundLocalError`. -/
def download_activity_file (authed : Bool) (resp1 : DlResponse) (fileBody : String)
    (outputPath : String) : Except PyErr (Bool × Option (String × String)) :=
  if !authed then .error (.apiError "Not authenticated.")
  else
    match resp1 with
    | .jsonEnvelope result message fileUrl =>
      match check_api_response result message with
      | .error e => .error e
      | .ok _ =>
        match fileUrl with
        | none => .ok (false, none)
        | some _ => .ok (true, some (outputPath, fileBody))
    | .nonJson _ =>
      .error (.unboundLocalError "local variable data referenced before assignment")

/-- The observable outcome of one `client.download_activity_file` call as
seen by the backup manager: return `True`, return `False` (no file URL —
the vendor download is unavailable), raise `CorosAPIError`, or raise
`CorosAuthError` (result code "1019"). -/
inductive DlOutcome where
  | success
  | unavailable
  | apiErr (msg : String)
  | authErr (msg : String)

/-- The download side of the client as a pure oracle: activity id and
format to call outcome. A fixed oracle models an unchanged remote. -/
def DlOracle : Type := String → ExportFormat → DlOutcome

/-- The run statistics dict built at backup.py lines 98-104. The
`formats_downloaded` dict (keyed by the format `.value`, which is
injective) is modelled as a count per format. -/
structure Stats where
  activities_found : Nat
  activities_skipped : Nat
  activities_downloaded : Nat
  activities_failed : Nat
  formats_downloaded : ExportFormat → Nat

/-- The initial statistics for a run over a fetched list. -/
def initStats (found : Nat) : Stats :=
  { activities_found := found
    activities_skipped := 0
    activities_downloaded := 0
    activities_failed := 0
    formats_downloaded := fun _ => 0 }

/-- Outcome of `BackupManager._download_activity_files` on one activity:
a propagated exception aborts the run (`err`); otherwise `success` is the
Python return value, `delta` the increments this call made to
`stats["formats_downloaded"]`, and `calls` logs the download requests
issued (for stating that no download is ever attempted on some paths). -/
structure DlFilesResult where
  err : Option PyErr
  success : Bool
  delta : ExportFormat → Nat
  calls : List (String × ExportFormat)

/-- Bump a per-format counter. -/
def bumpFormat (d : ExportFormat → Nat) (fmt : ExportFormat) : ExportFormat → Nat :=
  fun f => if f = fmt then d f + 1 else d f

/-- `BackupManager._download_activity_files` (backup.py lines 139-184),
iterating over the configured formats. The boolean returned by
`client.download_activity_file` is IGNORED by the source: `success =
True` runs (and the format counter bumps) whenever the call does not
raise — so an `unavailable` (returns-`False`) outcome still counts.
Only `CorosAPIError` is caught (line 181); `CorosAuthError` propagates
and aborts. The unconditional metadata write (lines 154-160) is a logged
best-effort file effect with no bearing on control flow and no claim. -/
def download_activity_files (dl : DlOracle) (aid : String) :
    List ExportFormat → DlFilesResult
  | [] => { err := none, success := false, delta := fun _ => 0, calls := [] }
  | fmt :: rest =>
    match dl aid fmt with
    | .authErr m =>
      { err := some (.authError m), success := false, delta := fun _ => 0
        calls := [(aid, fmt)] }
    | .apiErr _ =>
      let r := download_activity_files dl aid rest
      { err := r.err, success := r.success, delta := r.delta
        calls := (aid, fmt) :: r.calls }
    | .success =>
      let r := download_activity_files dl aid rest
      { err := r.err, success := true, delta := bumpFormat r.delta fmt
        calls := (aid, fmt) :: r.calls }
    | .unavailable =>
      let r := download_activity_files dl aid rest
      { err := r.err, success := true, delta := bumpFormat r.delta fmt
        calls := (aid, fmt) :: r.calls }

/-- Merge the per-activity format increments into the run statistics. -/
def mergeDelta (stats : Stats) (delta : ExportFormat → Nat) : Stats :=
  { stats with formats_downloaded := fun f => stats.formats_downloaded f + delta f }

/-- The per-activity loop of `run_backup` (backup.py lines 112-124):
skip when the id is already in the dedup set; otherwise download, and on
success add the id to the dedup set, update `last_synced_activity_id`,
increment the cumulative counter. Returns the run result (statistics or
propagated exception), the in-memory state, and the download-call log. -/
def processActivities (dl : DlOracle) (fmts : List ExportFormat) :
    List ActivitySummary → BackupState → Stats → List (String × ExportFormat) →
    Except PyErr Stats × BackupState × List (String × ExportFormat)
  | [], st, stats, calls => (.ok stats, st, calls)
  | a :: rest, st, stats, calls =>
    if a.activity_id ∈ st.downloaded_activity_ids then
      processActivities dl fmts rest st
        { stats with activities_skipped := stats.activities_skipped + 1 } calls
    else
      let r := download_activity_files dl a.activity_id fmts
      match r.err with
      | some e => (.error e, st, calls ++ r.calls)
      | none =>
        if r.success then
          processActivities dl fmts rest
            { st with
                downloaded_activity_ids := insert a.activity_id st.downloaded_activity_ids
                last_synced_activity_id := some a.activity_id
                total_activities_backed_up := st.total_activities_backed_up + 1 }
            (mergeDelta
              { stats with activities_downloaded := stats.activities_downloaded + 1 }
              r.delta)
            (calls ++ r.calls)
        else
          processActivities dl fmts rest st
            { stats with activities_failed := stats.activities_failed + 1 }
            (calls ++ r.calls)

/-- The full observable outcome of one `run_backup` invocation: the
returned statistics (or the propagated exception), the in-memory state
afterwards, the checkpoint content written (`none` when no state write
happened on that path), and the log of download calls issued. -/
structure RunResult where
  result : Except PyErr Stats
  state : BackupState
  savedFile : Option Json
  downloadCalls : List (String × ExportFormat)

/-- `BackupManager.run_backup` (backup.py lines 90-137): fetch up to the
fixed `limit=200` via `get_activities`, process each activity, then stamp
`last_backup_timestamp` and persist. A listing failure propagates before
any download or state write; a `CorosAuthError` escaping a download
aborts before the timestamp update and the save. -/
def run_backup (server : ListServer) (authed : Bool) (dl : DlOracle)
    (fmts : List ExportFormat) (nowEnd : Nat) (st : BackupState) : RunResult :=
  match get_activities server authed 200 with
  | .error e => { result := .error e, state := st, savedFile := none, downloadCalls := [] }
  | .ok acts =>
    match processActivities dl fmts acts st (initStats acts.length) [] with
    | (.error e, st1, calls) =>
      { result := .error e, state := st1, savedFile := none, downloadCalls := calls }
    | (.ok stats, st1, calls) =>
      let st2 := { st1 with last_backup_timestamp := nowEnd }
      { result := .ok stats, state := st2, savedFile := some (save_state st2)
        downloadCalls := calls }

/-- `BackupManager.get_backup_stats` (backup.py lines 186-196). -/
def get_backup_stats (st : BackupState) : String × Int × Nat :=
  (isoFormat st.last_backup_timestamp, st.total_activities_backed_up,
   st.downloaded_activity_ids.card)

/-! Concrete scenario inputs used by counterexamples and witnesses. -/

/-- A minimal activity record with the given id. -/
def sampleActivity (id : String) : ActivitySummary :=
  { activity_id := id, activity_name := "Workout", activity_type := .running
    start_time := 0, end_time := 0, workout_seconds := 0, total_seconds := 0
    distance_meters := 0 }

/-- A server whose listing is a single successful empty page. -/
def emptyServer : ListServer := fun _ _ =>
  { result := some "0000", message := none, totalPage := 1, dataList := [] }

/-- A server whose listing is one successful page with one activity. -/
def oneActServer : ListServer := fun _ _ =>
  { result := some "0000", message := none, totalPage := 1
    dataList := [sampleActivity "a1"] }

/-- A server reporting two pages: 200 records on page 1, one more on
page 2. -/
def twoPageServer : ListServer := fun _ p =>
  if p = 1 then
    { result := some "0000", message := none, totalPage := 2
      dataList := List.replicate 200 (sampleActivity "bulk") }
  else
    { result := some "0000", message := none, totalPage := 2
      dataList := [sampleActivity "extra"] }

/-- A server answering every listing request with the invalid-token
result code `"1019"`. -/
def expiredTokenServer : ListServer := fun _ _ =>
  { result := some "1019", message := some "token expired", totalPage := 1
    dataList := [] }

/-- A download oracle for which every call returns `True`. -/
def oracleAllSuccess : DlOracle := fun _ _ => .success

/-- A download oracle for which every call returns `False` (the vendor
reports no file URL). -/
def oracleAllUnavailable : DlOracle := fun _ _ => .unavailable

/-- A download oracle for which every call raises `CorosAPIError`. -/
def oracleAllApiErr : DlOracle := fun _ _ => .apiErr "download failed"

/-! Helper lemmas. -/

theorem fromIsoFormat_isoFormat (t : Nat) : fromIsoFormat (isoFormat t) = some t := by
  have h : (List.replicate t 'D').all (fun c => c == 'D') = true := by
    induction t with
    | zero => rfl
    | succ n ih => simp [List.replicate, ih]
  simp [fromIsoFormat, isoFormat, h]

theorem decodeStrList_map_str (l : List String) :
    decodeStrList (l.map Json.str) = some l := by
  induction l with
  | nil => rfl
  | cons a rest ih => simp [decodeStrList, ih]

theorem clampLimit_le_200 (limit : Int) : clampLimit limit ≤ 200 := by
  unfold clampLimit
  split <;> omega

theorem fetchPages_all_ok (server : ListServer) (lim : Int) :
    ∀ (pages : List Nat) (acc : List ActivitySummary),
      (∀ p ∈ pages, (server lim p).result = some "0000") →
      fetchPages server lim acc pages =
        .ok (acc ++ pages.flatMap (fun p => (server lim p).dataList)) := by
  intro pages
  induction pages with
  | nil =>
    intro acc _
    simp [fetchPages]
  | cons p rest ih =>
    intro acc h
    have hp : (server lim p).result = some "0000" := h p (List.mem_cons_self p rest)
    have hrest : ∀ q ∈ rest, (server lim q).result = some "0000" :=
      fun q hq => h q (List.mem_cons_of_mem p hq)
    simp [fetchPages, check_api_response, hp,
      ih (acc ++ (server lim p).dataList) hrest]

/-! Claim theorems. -/

/-- C7: every unmapped vendor sport-type code converts to `other`;
`other` converts back to no vendor code; every non-`other` activity type
converts back to a vendor code that round-trips to it. -/
theorem activityType_vendor_code_bidirectional :
    (∀ c : Int, sportTypeMap.lookup c = none → ActivityType.from_sport_type c = .other) ∧
    ActivityType.to_sport_type .other = none ∧
    (∀ t : ActivityType, t ≠ .other →
      ∃ c : Int, ActivityType.to_sport_type t = some c ∧
        ActivityType.from_sport_type c = t) := by
  refine ⟨?_, by decide, ?_⟩
  · intro c h
    simp [ActivityType.from_sport_type, h, ActivityType.ofValue]
  · intro t ht
    cases t
    case other => exact absurd rfl ht
    case running => exact ⟨100, by decide⟩
    case trailRunning => exact ⟨101, by decide⟩
    case cycling => exact ⟨200, by decide⟩
    case mountainBiking => exact ⟨201, by decide⟩
    case swimming => exact ⟨300, by decide⟩
    case poolSwim => exact ⟨301, by decide⟩
    case hiking => exact ⟨104, by decide⟩
    case strength => exact ⟨402, by decide⟩
    case yoga => exact ⟨904, by decide⟩
    case triathlon => exact ⟨500, by decide⟩

/-- Witness for C7: code 999 is unmapped and converts to `other`;
`running` round-trips through its vendor code. -/
theorem activityType_vendor_code_bidirectional_witness :
    ActivityType.from_sport_type 999 = .other ∧
    ActivityType.to_sport_type .other = none ∧
    (∃ c : Int, ActivityType.to_sport_type .running = some c ∧
      ActivityType.from_sport_type c = .running) :=
  ⟨activityType_vendor_code_bidirectional.1 999 (by decide),
   activityType_vendor_code_bidirectional.2.1,
   activityType_vendor_code_bidirectional.2.2 .running (by decide)⟩

/-- C8: every `ExportFormat` has a vendor file-type code, and an
unmapped vendor file-type code converts to a `ValueError`, not to a
default. -/
theorem exportFormat_total_code_and_strict_lookup :
    (∀ f : ExportFormat, (ExportFormat.to_file_type f).isSome = true) ∧
    (∀ c : Int, fileTypeMap.lookup c = none →
      ∃ m, ExportFormat.from_file_type c = .error (.valueError m)) := by
  constructor
  · intro f
    cases f <;> decide
  · intro c h
    refine ⟨"OTHER" ++ " is not a valid ExportFormat", ?_⟩
    simp [ExportFormat.from_file_type, h, ExportFormat.ofValue]

/-- Witness for C8: `csv` has a code; the unmapped code 7 raises. -/
theorem exportFormat_total_code_and_strict_lookup_witness :
    ((ExportFormat.to_file_type .csv).isSome = true) ∧
    (∃ m, ExportFormat.from_file_type 7 = .error (.valueError m)) :=
  ⟨exportFormat_total_code_and_strict_lookup.1 .csv,
   exportFormat_total_code_and_strict_lookup.2 7 (by decide)⟩

/-- C9: saving a `BackupState` to the checkpoint document and loading it
back is the identity — dedup set, counters and the rest of the record
all round-trip. -/
theorem backupState_save_load_roundtrip (st : BackupState) (now : Nat) :
    load_state (.json (save_state st)) now = .ok st := by
  obtain ⟨ts, total, lastId, ids⟩ := st
  cases lastId <;>
    simp [save_state, load_state, lookupField, getIntField, getOptStrField,
      getIdSetField, fromIsoFormat_isoFormat, decodeStrList_map_str,
      Finset.sort_toFinset]

/-- C2 counterexample: the checkpoint content `{}` is valid JSON that
fails to parse as a state (the mandatory `last_backup_timestamp` key is
absent), and loading it raises `KeyError` — refuting the claim that a
checkpoint whose content fails to parse never raises. -/
theorem load_state_raises_on_empty_object :
    load_state (.json (Json.obj [])) 42 = .error (.keyError "last_backup_timestamp") := rfl

/-- C2 as amended: a checkpoint file that is missing, unreadable, or
whose content is not valid JSON never raises: the manager substitutes a
fresh state with an empty dedup set, zero counter and the current time.
(Valid JSON that fails deeper validation, e.g. `{}`, raises instead.) -/
theorem load_state_recovers_from_invalid_json (raw : String) (now : Nat) :
    load_state (.invalidJson raw) now = .ok (freshState now) ∧
    load_state .ioError now = .ok (freshState now) ∧
    load_state .missing now = .ok (freshState now) ∧
    (freshState now).downloaded_activity_ids = ∅ ∧
    (freshState now).total_activities_backed_up = 0 ∧
    (freshState now).last_backup_timestamp = now :=
  ⟨rfl, rfl, rfl, rfl, rfl, rfl⟩

/-- C6 (code bug): on an authenticated call whose first response is not
a JSON envelope, `download_activity_file` does not return a boolean — it
raises `UnboundLocalError`, because the local `data` is only assigned
inside the JSON branch (client.py lines 187-193). -/
theorem download_activity_file_raises_on_nonjson_response :
    download_activity_file true (.nonJson "binary file bytes") "body" "out.fit" =
      .error (.unboundLocalError "local variable data referenced before assignment") := rfl

theorem processActivities_cons_skip (dl : DlOracle) (fmts : List ExportFormat)
    (a : ActivitySummary) (rest : List ActivitySummary) (st : BackupState)
    (stats : Stats) (calls : List (String × ExportFormat))
    (hmem : a.activity_id ∈ st.downloaded_activity_ids) :
    processActivities dl fmts (a :: rest) st stats calls =
      processActivities dl fmts rest st
        { stats with activities_skipped := stats.activities_skipped + 1 } calls := by
  simp [processActivities, hmem]

theorem processActivities_cons_abort (dl : DlOracle) (fmts : List ExportFormat)
    (a : ActivitySummary) (rest : List ActivitySummary) (st : BackupState)
    (stats : Stats) (calls : List (String × ExportFormat)) (e : PyErr)
    (hmem : a.activity_id ∉ st.downloaded_activity_ids)
    (hr : (download_activity_files dl a.activity_id fmts).err = some e) :
    processActivities dl fmts (a :: rest) st stats calls =
      (.error e, st, calls ++ (download_activity_files dl a.activity_id fmts).calls) := by
  simp [processActivities, hmem, hr]

theorem processActivities_cons_success (dl : DlOracle) (fmts : List ExportFormat)
    (a : ActivitySummary) (rest : List ActivitySummary) (st : BackupState)
    (stats : Stats) (calls : List (String × ExportFormat))
    (hmem : a.activity_id ∉ st.downloaded_activity_ids)
    (hr : (download_activity_files dl a.activity_id fmts).err = none)
    (hs : (download_activity_files dl a.activity_id fmts).success = true) :
    processActivities dl fmts (a :: rest) st stats calls =
      processActivities dl fmts rest
        { st with
            downloaded_activity_ids := insert a.activity_id st.downloaded_activity_ids
            last_synced_activity_id := some a.activity_id
            total_activities_backed_up := st.total_activities_backed_up + 1 }
        (mergeDelta
          { stats with activities_downloaded := stats.activities_downloaded + 1 }
          (download_activity_files dl a.activity_id fmts).delta)
        (calls ++ (download_activity_files dl a.activity_id fmts).calls) := by
  simp [processActivities, hmem, hr, hs]

theorem processActivities_cons_failure (dl : DlOracle) (fmts : List ExportFormat)
    (a : ActivitySummary) (rest : List ActivitySummary) (st : BackupState)
    (stats : Stats) (calls : List (String × ExportFormat))
    (hmem : a.activity_id ∉ st.downloaded_activity_ids)
    (hr : (download_activity_files dl a.activity_id fmts).err = none)
    (hs : (download_activity_files dl a.activity_id fmts).success = false) :
    processActivities dl fmts (a :: rest) st stats calls =
      processActivities dl fmts rest st
        { stats with activities_failed := stats.activities_failed + 1 }
        (calls ++ (download_activity_files dl a.activity_id fmts).calls) := by
  simp [processActivities, hmem, hr, hs]

theorem processActivities_subset (dl : DlOracle) (fmts : List ExportFormat) :
    ∀ (acts : List ActivitySummary) (st : BackupState) (stats : Stats)
      (calls : List (String × ExportFormat)),
      st.downloaded_activity_ids ⊆
        (processActivities dl fmts acts st stats calls).2.1.downloaded_activity_ids := by
  intro acts
  induction acts with
  | nil =>
    intro st stats calls
    simp [processActivities]
  | cons a rest ih =>
    intro st stats calls
    by_cases hmem : a.activity_id ∈ st.downloaded_activity_ids
    · rw [processActivities_cons_skip dl fmts a rest st stats calls hmem]
      exact ih st _ calls
    · cases hr : (download_activity_files dl a.activity_id fmts).err with
      | some e =>
        rw [processActivities_cons_abort dl fmts a rest st stats calls e hmem hr]
      | none =>
        cases hs : (download_activity_files dl a.activity_id fmts).success with
        | false =>
          rw [processActivities_cons_failure dl fmts a rest st stats calls hmem hr hs]
          exact ih st _ _
        | true =>
          rw [processActivities_cons_success dl fmts a rest st stats calls hmem hr hs]
          exact Finset.Subset.trans (Finset.subset_insert a.activity_id _)
            (ih { st with
                    downloaded_activity_ids :=
                      insert a.activity_id st.downloaded_activity_ids
                    last_synced_activity_id := some a.activity_id
                    total_activities_backed_up := st.total_activities_backed_up + 1 }
              (mergeDelta
                { stats with
                    activities_downloaded := stats.activities_downloaded + 1 }
                (download_activity_files dl a.activity_id fmts).delta)
              (calls ++ (download_activity_files dl a.activity_id fmts).calls))

theorem processActivities_ok_spec (dl : DlOracle) (fmts : List ExportFormat) :
    ∀ (acts : List ActivitySummary) (st : BackupState) (stats : Stats)
      (calls : List (String × ExportFormat)) (s1 : Stats) (st1 : BackupState)
      (calls1 : List (String × ExportFormat)),
      processActivities dl fmts acts st stats calls = (.ok s1, st1, calls1) →
      s1.activities_found = stats.activities_found ∧
      stats.activities_failed ≤ s1.activities_failed ∧
      (∃ k : Nat, s1.activities_downloaded = stats.activities_downloaded + k ∧
        st1.total_activities_backed_up = st.total_activities_backed_up + (k : Int)) ∧
      (s1.activities_failed = stats.activities_failed →
        ∀ a ∈ acts, a.activity_id ∈ st1.downloaded_activity_ids) := by
  intro acts
  induction acts with
  | nil =>
    intro st stats calls s1 st1 calls1 h
    simp only [processActivities, Prod.mk.injEq] at h
    obtain ⟨h1, h2, h3⟩ := h
    cases h1
    subst h2
    refine ⟨rfl, le_refl _, ⟨0, by simp, by simp⟩, ?_⟩
    intro _ a ha
    simp at ha
  | cons a rest ih =>
    intro st stats calls s1 st1 calls1 h
    by_cases hmem : a.activity_id ∈ st.downloaded_activity_ids
    · rw [processActivities_cons_skip dl fmts a rest st stats calls hmem] at h
      have hh := ih st _ calls s1 st1 calls1 h
      have hsub : st.downloaded_activity_ids ⊆ st1.downloaded_activity_ids := by
        have hsub0 := processActivities_subset dl fmts rest st
          { stats with activities_skipped := stats.activities_skipped + 1 } calls
        rw [h] at hsub0
        exact hsub0
      refine ⟨by simpa using hh.1, by simpa using hh.2.1, ?_, ?_⟩
      · obtain ⟨k, hk1, hk2⟩ := hh.2.2.1
        exact ⟨k, by simpa using hk1, hk2⟩
      · intro hfail b hb
        rcases List.mem_cons.mp hb with hba | hbr
        · rw [hba]
          exact hsub hmem
        · exact hh.2.2.2 (by simpa using hfail) b hbr
    · cases hr : (download_activity_files dl a.activity_id fmts).err with
      | some e =>
        rw [processActivities_cons_abort dl fmts a rest st stats calls e hmem hr] at h
        simp at h
      | none =>
        cases hs : (download_activity_files dl a.activity_id fmts).success with
        | false =>
          rw [processActivities_cons_failure dl fmts a rest st stats calls hmem hr hs] at h
          have hh := ih st _ _ s1 st1 calls1 h
          refine ⟨by simpa using hh.1, ?_, ?_, ?_⟩
          · have := hh.2.1
            simp at this
            omega
          · obtain ⟨k, hk1, hk2⟩ := hh.2.2.1
            exact ⟨k, by simpa using hk1, hk2⟩
          · intro hfail
            exfalso
            have := hh.2.1
            simp at this
            omega
        | true =>
          rw [processActivities_cons_success dl fmts a rest st stats calls hmem hr hs] at h
          have hh := ih
            { st with
                downloaded_activity_ids := insert a.activity_id st.downloaded_activity_ids
                last_synced_activity_id := some a.activity_id
                total_activities_backed_up := st.total_activities_backed_up + 1 }
            (mergeDelta
              { stats with activities_downloaded := stats.activities_downloaded + 1 }
              (download_activity_files dl a.activity_id fmts).delta)
            (calls ++ (download_activity_files dl a.activity_id fmts).calls)
            s1 st1 calls1 h
          have hsub : insert a.activity_id st.downloaded_activity_ids ⊆
              st1.downloaded_activity_ids := by
            have hsub0 := processActivities_subset dl fmts rest
              { st with
                  downloaded_activity_ids := insert a.activity_id st.downloaded_activity_ids
                  last_synced_activity_id := some a.activity_id
                  total_activities_backed_up := st.total_activities_backed_up + 1 }
              (mergeDelta
                { stats with activities_downloaded := stats.activities_downloaded + 1 }
                (download_activity_files dl a.activity_id fmts).delta)
              (calls ++ (download_activity_files dl a.activity_id fmts).calls)
            rw [h] at hsub0
            exact hsub0
          refine ⟨by simpa [mergeDelta] using hh.1, by simpa [mergeDelta] using hh.2.1, ?_, ?_⟩
          · obtain ⟨k, hk1, hk2⟩ := hh.2.2.1
            simp [mergeDelta] at hk1
            simp at hk2
            refine ⟨k + 1, by omega, ?_⟩
            push_cast
            omega
          · intro hfail b hb
            rcases List.mem_cons.mp hb with hba | hbr
            · rw [hba]
              exact hsub (Finset.mem_insert_self _ _)
            · exact hh.2.2.2 (by simpa [mergeDelta] using hfail) b hbr

theorem processActivities_all_skipped (dl : DlOracle) (fmts : List ExportFormat) :
    ∀ (acts : List ActivitySummary) (st : BackupState) (stats : Stats)
      (calls : List (String × ExportFormat)),
      (∀ a ∈ acts, a.activity_id ∈ st.downloaded_activity_ids) →
      processActivities dl fmts acts st stats calls =
        (.ok { stats with
                 activities_skipped := stats.activities_skipped + acts.length },
         st, calls) := by
  intro acts
  induction acts with
  | nil =>
    intro st stats calls _
    simp [processActivities]
  | cons a rest ih =>
    intro st stats calls h
    have hmem : a.activity_id ∈ st.downloaded_activity_ids :=
      h a (List.mem_cons_self a rest)
    rw [processActivities_cons_skip dl fmts a rest st stats calls hmem]
    rw [ih st _ calls (fun b hb => h b (List.mem_cons_of_mem a hb))]
    have harith : stats.activities_skipped + 1 + rest.length =
        stats.activities_skipped + (a :: rest).length := by
      simp
      omega
    simp [harith]

/-- C10: across a `run_backup` execution the in-memory state evolves
monotonically — the dedup set only gains ids (on every path, including
aborts), and on a completed run the cumulative counter grows by exactly
the number of activities the run counted as downloaded. -/
theorem run_backup_monotone_state (server : ListServer) (authed : Bool)
    (dl : DlOracle) (fmts : List ExportFormat) (now : Nat) (st : BackupState) :
    st.downloaded_activity_ids ⊆
      (run_backup server authed dl fmts now st).state.downloaded_activity_ids ∧
    (∀ stats : Stats, (run_backup server authed dl fmts now st).result = .ok stats →
      (run_backup server authed dl fmts now st).state.total_activities_backed_up =
        st.total_activities_backed_up + (stats.activities_downloaded : Int)) := by
  cases hga : get_activities server authed 200 with
  | error e =>
    refine ⟨?_, ?_⟩
    · simp [run_backup, hga]
    · intro stats h
      simp [run_backup, hga] at h
  | ok acts =>
    rcases hp : processActivities dl fmts acts st (initStats acts.length) [] with
      ⟨res, st1, calls⟩
    have hsub := processActivities_subset dl fmts acts st (initStats acts.length) []
    rw [hp] at hsub
    cases res with
    | error e =>
      refine ⟨?_, ?_⟩
      · simpa [run_backup, hga, hp] using hsub
      · intro stats h
        simp [run_backup, hga, hp] at h
    | ok s =>
      refine ⟨?_, ?_⟩
      · simpa [run_backup, hga, hp] using hsub
      · intro stats h
        have hs : s = stats := by
          simp [run_backup, hga, hp] at h
          exact h
        subst hs
        obtain ⟨-, -, ⟨k, hk1, hk2⟩, -⟩ :=
          processActivities_ok_spec dl fmts acts st (initStats acts.length) [] s st1 calls hp
        simp only [initStats] at hk1
        simp [run_backup, hga, hp]
        omega

/-- Witness for C10 at a concrete run: an authenticated run over an
empty listing keeps the dedup set and adds zero to the counter. -/
theorem run_backup_monotone_state_witness :
    (freshState 3).downloaded_activity_ids ⊆
      (run_backup emptyServer true oracleAllUnavailable [ExportFormat.fit] 5
        (freshState 3)).state.downloaded_activity_ids ∧
    (run_backup emptyServer true oracleAllUnavailable [ExportFormat.fit] 5
        (freshState 3)).state.total_activities_backed_up =
      (freshState 3).total_activities_backed_up +
        ((initStats 0).activities_downloaded : Int) :=
  ⟨(run_backup_monotone_state emptyServer true oracleAllUnavailable
      [ExportFormat.fit] 5 (freshState 3)).1,
   (run_backup_monotone_state emptyServer true oracleAllUnavailable
      [ExportFormat.fit] 5 (freshState 3)).2 (initStats 0) rfl⟩

/-- C1 counterexample: one remote activity whose downloads always raise
`CorosAPIError`. The first run counts it failed (so its id is not added
to the dedup set); on the second run with the unchanged remote list it is
retried and counted failed again — `activities_skipped = 0`, refuting
"on the second run ... all counted as skipped". -/
theorem run_backup_second_run_not_all_skipped :
    ((run_backup oneActServer true oracleAllApiErr [ExportFormat.fit] 2
        (run_backup oneActServer true oracleAllApiErr [ExportFormat.fit] 1
          (freshState 0)).state).result).map
      (fun s => (s.activities_found, s.activities_skipped,
        s.activities_downloaded, s.activities_failed)) = .ok (1, 0, 0, 1) := rfl

/-- C1 as amended: if the first run completes with zero failures, a
second run against the unchanged remote (same listing, same download
behaviour) downloads nothing, counts every activity as skipped, issues
no download call, and leaves the state identical except for
`last_backup_timestamp` — in particular `downloaded_activity_ids` is
unchanged. -/
theorem run_backup_idempotent_when_no_failures (server : ListServer)
    (dl : DlOracle) (fmts : List ExportFormat) (now1 now2 : Nat)
    (st : BackupState) (stats1 : Stats)
    (h1 : (run_backup server true dl fmts now1 st).result = .ok stats1)
    (h0 : stats1.activities_failed = 0) :
    (run_backup server true dl fmts now2
        (run_backup server true dl fmts now1 st).state).result =
      .ok { activities_found := stats1.activities_found
            activities_skipped := stats1.activities_found
            activities_downloaded := 0
            activities_failed := 0
            formats_downloaded := fun _ => 0 } ∧
    (run_backup server true dl fmts now2
        (run_backup server true dl fmts now1 st).state).state =
      { (run_backup server true dl fmts now1 st).state with
          last_backup_timestamp := now2 } ∧
    (run_backup server true dl fmts now2
        (run_backup server true dl fmts now1 st).state).state.downloaded_activity_ids =
      (run_backup server true dl fmts now1 st).state.downloaded_activity_ids ∧
    (run_backup server true dl fmts now2
        (run_backup server true dl fmts now1 st).state).downloadCalls = [] := by
  cases hga : get_activities server true 200 with
  | error e =>
    exfalso
    simp [run_backup, hga] at h1
  | ok acts =>
    rcases hp : processActivities dl fmts acts st (initStats acts.length) [] with
      ⟨res, st1, calls⟩
    cases res with
    | error e =>
      exfalso
      simp [run_backup, hga, hp] at h1
    | ok s =>
      have hs : s = stats1 := by
        simp [run_backup, hga, hp] at h1
        exact h1
      subst hs
      obtain ⟨hfound, -, -, hall⟩ :=
        processActivities_ok_spec dl fmts acts st (initStats acts.length) [] s st1 calls hp
      simp only [initStats] at hfound
      have hall1 : ∀ a ∈ acts, a.activity_id ∈ st1.downloaded_activity_ids := by
        apply hall
        simp [initStats, h0]
      have hr1 : (run_backup server true dl fmts now1 st).state =
          { st1 with last_backup_timestamp := now1 } := by
        simp [run_backup, hga, hp]
      have hall2 : ∀ a ∈ acts, a.activity_id ∈
          ({ st1 with last_backup_timestamp := now1 } :
            BackupState).downloaded_activity_ids := hall1
      have hp2 := processActivities_all_skipped dl fmts acts
        { st1 with last_backup_timestamp := now1 } (initStats acts.length) [] hall2
      have hr2 : run_backup server true dl fmts now2
          { st1 with last_backup_timestamp := now1 } =
          { result := .ok { initStats acts.length with
              activities_skipped :=
                (initStats acts.length).activities_skipped + acts.length }
            state := { st1 with last_backup_timestamp := now2 }
            savedFile := some (save_state { st1 with last_backup_timestamp := now2 })
            downloadCalls := [] } := by
        simp only [run_backup, hga]
        rw [hp2]
      rw [hr1, hr2]
      refine ⟨?_, rfl, rfl, rfl⟩
      simp [initStats, hfound]

/-- Witness for C1: a remote with one activity already present in the
dedup set; the first run skips it with zero failures, and the theorem
applies to show the second run issues no download call. -/
theorem run_backup_idempotent_when_no_failures_witness :
    (run_backup oneActServer true oracleAllApiErr [ExportFormat.fit] 2
      (run_backup oneActServer true oracleAllApiErr [ExportFormat.fit] 1
        { freshState 0 with downloaded_activity_ids := {"a1"} }).state).downloadCalls = [] :=
  (run_backup_idempotent_when_no_failures oneActServer oracleAllApiErr
    [ExportFormat.fit] 1 2 { freshState 0 with downloaded_activity_ids := {"a1"} }
    { activities_found := 1
      activities_skipped := 1
      activities_downloaded := 0
      activities_failed := 0
      formats_downloaded := fun _ => 0 }
    rfl rfl).2.2.2

/-- C3 at its failing input: one new activity, one configured format,
and the client call returns `False` (no file URL — zero formats actually
succeed). Because `_download_activity_files` ignores the boolean return
value (backup.py lines 168-175), the run counts the activity as
downloaded (not failed), adds its id to the dedup set, and counts the
format in the breakdown — contradicting the claim that with zero
successful formats the activity is counted failed and not added. -/
theorem run_backup_counts_unavailable_as_downloaded :
    ((run_backup oneActServer true oracleAllUnavailable [ExportFormat.fit] 7
        (freshState 0)).result).map
      (fun s => (s.activities_downloaded, s.activities_failed,
        s.formats_downloaded ExportFormat.fit)) = .ok (1, 0, 1) ∧
    (run_backup oneActServer true oracleAllUnavailable [ExportFormat.fit] 7
        (freshState 0)).state.downloaded_activity_ids = {"a1"} := by
  refine ⟨rfl, by decide⟩

/-- C4 counterexample: a listing response whose result code is `"1019"`
(not `"0000"`) makes `run_backup` raise `CorosAuthError`, not
`CorosAPIError` as the claim states (client.py lines 80-84). -/
theorem run_backup_listing_1019_raises_auth_error :
    (run_backup expiredTokenServer true oracleAllSuccess [ExportFormat.fit] 3
        (freshState 0)).result =
      .error (.authError "Access token is invalid: token expired") ∧
    (run_backup expiredTokenServer true oracleAllSuccess [ExportFormat.fit] 3
        (freshState 0)).savedFile = none := ⟨rfl, rfl⟩

/-- C4 as amended: whenever the first listing response carries a result
code other than `"0000"`, `run_backup` propagates the exception —
`CorosAuthError` for code `"1019"`, `CorosAPIError` otherwise — before
any download is attempted (the download-call log is empty), with no
state write and the in-memory state untouched. -/
theorem run_backup_listing_error_aborts (server : ListServer) (dl : DlOracle)
    (fmts : List ExportFormat) (now : Nat) (st : BackupState)
    (h : (server 200 1).result ≠ some "0000") :
    (run_backup server true dl fmts now st).result =
      .error
        (if (server 200 1).result.getD "unknown" = "1019" then
          PyErr.authError
            ("Access token is invalid: " ++ (server 200 1).message.getD "Unknown error")
        else
          PyErr.apiError
            ("API error (code " ++ (server 200 1).result.getD "unknown" ++ "): " ++
              (server 200 1).message.getD "Unknown error")) ∧
    (run_backup server true dl fmts now st).savedFile = none ∧
    (run_backup server true dl fmts now st).state = st ∧
    (run_backup server true dl fmts now st).downloadCalls = [] := by
  have hc : clampLimit 200 = 200 := by decide
  by_cases h19 : (server 200 1).result.getD "unknown" = "1019" <;>
    simp [run_backup, get_activities, check_api_response, hc, h, h19]

/-- Witness for C4: the invalid-token server, at which no state write
and no download call happen. -/
theorem run_backup_listing_error_aborts_witness :
    (run_backup expiredTokenServer true oracleAllUnavailable [] 0
        (freshState 1)).savedFile = none ∧
    (run_backup expiredTokenServer true oracleAllUnavailable [] 0
        (freshState 1)).downloadCalls = [] :=
  ⟨(run_backup_listing_error_aborts expiredTokenServer oracleAllUnavailable [] 0
      (freshState 1) (by decide)).2.1,
   (run_backup_listing_error_aborts expiredTokenServer oracleAllUnavailable [] 0
      (freshState 1) (by decide)).2.2.2⟩

/-- C5 counterexample: a server reporting two pages (200 records, then
one more). `get_activities` with the run-level `limit=200` accumulates
both pages and returns 201 activities, refuting "the list processed by
run_backup has length at most 200". -/
theorem get_activities_can_exceed_200 :
    (get_activities twoPageServer true 200).map List.length = .ok 201 := rfl

/-- C5 as amended: the requested page *size* is clamped to the
vendor-imposed maximum of 200, but the fetch is not single-shot: when
every consulted page answers `"0000"`, `get_activities` returns the
concatenation of page 1 with all follow-up pages 2..totalPage, which may
exceed 200 records. -/
theorem get_activities_clamps_but_paginates (server : ListServer) (limit : Int)
    (h1 : (server (clampLimit limit) 1).result = some "0000")
    (h2 : ∀ p ∈ followUpPages (server (clampLimit limit) 1).totalPage,
      (server (clampLimit limit) p).result = some "0000") :
    clampLimit limit ≤ 200 ∧
    get_activities server true limit =
      .ok ((server (clampLimit limit) 1).dataList ++
        (followUpPages (server (clampLimit limit) 1).totalPage).flatMap
          (fun p => (server (clampLimit limit) p).dataList)) := by
  refine ⟨clampLimit_le_200 limit, ?_⟩
  have hfetch := fetchPages_all_ok server (clampLimit limit)
    (followUpPages (server (clampLimit limit) 1).totalPage)
    (server (clampLimit limit) 1).dataList h2
  simp [get_activities, check_api_response, h1, hfetch]

/-- Witness for C5 at a concrete server and limit. -/
theorem get_activities_clamps_but_paginates_witness :
    clampLimit 200 ≤ 200 ∧ get_activities emptyServer true 200 = .ok [] := by
  have h := get_activities_clamps_but_paginates emptyServer 200 (by decide) (by decide)
  exact ⟨h.1, by simpa [emptyServer, followUpPages] using h.2⟩
